import Mathlib

/-!
# Verification of the decyphr Dataset Profiling & Orchestration Engine

Shallow embedding of the profiling core of `decyphr`
(`3_Source_Code/decyphr/main_orchestrator.py` and
`3_Source_Code/decyphr/analysis_plugins/p01_overview/run_analysis.py`)
together with proofs about the column classifier, the sampling engine,
the partition diagnostics, the health scorer and the stage orchestrator.

Numbers that are Python floats are modelled as rationals (`ℚ`);
Python's `round(x, n)` is modelled as round-half-even on `ℚ`.
Fallible Python code (code that can raise, e.g. a division) is modelled
with `Except String`.
-/

namespace Decyphr

/-! ## Round-half-even (model of Python `round`) -/

/-- Round-half-even of a rational to an integer (ties go to the even
neighbour), the idealised model of Python's `round(x)` on floats. -/
def rhe (q : ℚ) : ℤ :=
  if q - ⌊q⌋ < 1/2 then ⌊q⌋
  else if 1/2 < q - ⌊q⌋ then ⌊q⌋ + 1
  else if Even ⌊q⌋ then ⌊q⌋ else ⌊q⌋ + 1

/-- Model of Python `round(q, n)`: round half to even at `n` decimal digits. -/
def roundq (q : ℚ) (n : ℕ) : ℚ :=
  (rhe (q * 10 ^ n) : ℚ) / 10 ^ n

theorem rhe_bounds (q : ℚ) : q - 1/2 ≤ (rhe q : ℚ) ∧ (rhe q : ℚ) ≤ q + 1/2 := by
  have h1 : (⌊q⌋ : ℚ) ≤ q := Int.floor_le q
  have h2 : q < (⌊q⌋ : ℚ) + 1 := Int.lt_floor_add_one q
  unfold rhe
  split_ifs with hlt hgt hev <;> constructor <;> push_cast <;> linarith

theorem rhe_mono {x y : ℚ} (h : x ≤ y) : rhe x ≤ rhe y := by
  by_contra hlt
  push_neg at hlt
  have hx := rhe_bounds x
  have hy := rhe_bounds y
  have hc : (rhe y : ℚ) < (rhe x : ℚ) := by exact_mod_cast hlt
  have hc1 : (rhe y : ℚ) + 1 ≤ (rhe x : ℚ) := by
    have : rhe y + 1 ≤ rhe x := hlt
    exact_mod_cast this
  have hyx : y ≤ x := by linarith [hx.2, hy.1]
  have hxy : x = y := le_antisymm h hyx
  rw [hxy] at hlt
  exact lt_irrefl _ hlt

theorem rhe_intCast (n : ℤ) : rhe (n : ℚ) = n := by
  have h0 : ⌊(n : ℚ)⌋ = n := Int.floor_intCast n
  unfold rhe
  rw [h0]
  have : (n : ℚ) - n < 1/2 := by norm_num
  rw [if_pos this]

theorem roundq_mono {x y : ℚ} (n : ℕ) (h : x ≤ y) : roundq x n ≤ roundq y n := by
  unfold roundq
  have hp : (0 : ℚ) < 10 ^ n := by positivity
  have hm : x * 10 ^ n ≤ y * 10 ^ n := by
    exact mul_le_mul_of_nonneg_right h (le_of_lt hp)
  have := rhe_mono hm
  have hcast : (rhe (x * 10 ^ n) : ℚ) ≤ (rhe (y * 10 ^ n) : ℚ) := by exact_mod_cast this
  exact div_le_div_of_nonneg_right hcast hp.le

theorem roundq_le_of_le {x c : ℚ} (n : ℕ) (hc : rhe (c * 10 ^ n) = c * 10 ^ n)
    (h : x ≤ c) : roundq x n ≤ c := by
  have := roundq_mono n h
  have hEq : roundq c n = c := by
    unfold roundq
    rw [hc]
    have hp : (10 : ℚ) ^ n ≠ 0 := by positivity
    field_simp
  rw [hEq] at this
  exact this

/-! ## HealthScorer

Two health-score formulas exist in the source.

* `_calculate_health_score` in
  `analysis_plugins/p01_overview/run_analysis.py`:
  `score = 100 - (missing_pct * 0.4 + duplicate_pct * 0.3 + outlier_pct * 0.3)`
  then `max(0, round(score, 1))` (no upper clamp in the code).
* the "final" variant in `main_orchestrator.py`:
  `raw_score = 100 - missing_pct - duplicate_pct - (0.5 * anomaly_pct)`,
  `health_score = max(0, min(100, round(raw_score, 1)))`, with the label
  chain `>= 90 → Excellent`, `>= 80 → Good`, `>= 60 → Fair`, else `Poor`.
-/

/-- Embedding of `_calculate_health_score(missing_pct, duplicate_pct, outlier_pct=0)`
from `p01_overview/run_analysis.py`. -/
def calculateHealthScore (missingPct duplicatePct outlierPct : ℚ) : ℚ :=
  max 0 (roundq (100 - (missingPct * (4/10) + duplicatePct * (3/10) + outlierPct * (3/10))) 1)

/-- Embedding of the final health-score computation in
`main_orchestrator.py` (`raw_score` / `health_score`). -/
def healthScoreFinal (missingPct duplicatePct anomalyPct : ℚ) : ℚ :=
  max 0 (min 100 (roundq (100 - missingPct - duplicatePct - (5/10) * anomalyPct) 1))

/-- Embedding of the label chain in `main_orchestrator.py`. -/
def healthLabelFinal (healthScore : ℚ) : String :=
  if healthScore ≥ 90 then "Excellent"
  else if healthScore ≥ 80 then "Good"
  else if healthScore ≥ 60 then "Fair"
  else "Poor"

theorem healthScoreFinal_nonneg (m d a : ℚ) : 0 ≤ healthScoreFinal m d a :=
  le_max_left 0 _

theorem healthScoreFinal_le_100 (m d a : ℚ) : healthScoreFinal m d a ≤ 100 :=
  max_le (by norm_num) (min_le_left _ _)

theorem rhe_1000 : rhe ((100 : ℚ) * 10 ^ 1) = (100 : ℚ) * 10 ^ 1 := by
  have : ((100 : ℚ) * 10 ^ 1) = ((1000 : ℤ) : ℚ) := by norm_num
  rw [this, rhe_intCast]

theorem calculateHealthScore_nonneg (m d o : ℚ) : 0 ≤ calculateHealthScore m d o :=
  le_max_left 0 _

theorem calculateHealthScore_le_100 {m d o : ℚ}
    (hm : 0 ≤ m) (hd : 0 ≤ d) (ho : 0 ≤ o) : calculateHealthScore m d o ≤ 100 := by
  unfold calculateHealthScore
  have harg : 100 - (m * (4/10) + d * (3/10) + o * (3/10)) ≤ (100 : ℚ) := by linarith
  have := roundq_le_of_le 1 rhe_1000 harg
  exact max_le (by norm_num) this

theorem calculateHealthScore_antitone {m m' d d' o o' : ℚ}
    (hm : m ≤ m') (hd : d ≤ d') (ho : o ≤ o') :
    calculateHealthScore m' d' o' ≤ calculateHealthScore m d o := by
  unfold calculateHealthScore
  have harg : 100 - (m' * (4/10) + d' * (3/10) + o' * (3/10))
      ≤ 100 - (m * (4/10) + d * (3/10) + o * (3/10)) := by linarith
  exact max_le_max le_rfl (roundq_mono 1 harg)

theorem healthScoreFinal_antitone {m m' d d' a a' : ℚ}
    (hm : m ≤ m') (hd : d ≤ d') (ha : a ≤ a') :
    healthScoreFinal m' d' a' ≤ healthScoreFinal m d a := by
  unfold healthScoreFinal
  have harg : 100 - m' - d' - (5/10) * a' ≤ 100 - m - d - (5/10) * a := by linarith
  exact max_le_max le_rfl (min_le_min le_rfl (roundq_mono 1 harg))

/-! ## ColumnClassifier

Embedding of `_classify_column(dtype, nunique, col_size, col_name, sample_values)`
from `analysis_plugins/p01_overview/run_analysis.py`.

* dtypes are modelled by the inductive `PDType`; the pandas predicates
  `is_string_dtype`/`is_object_dtype`, `is_datetime64_any_dtype` and
  `is_numeric_dtype` become Boolean functions on it (`bool` counts as
  numeric in pandas).
* `sample_values` is a `List (Option String)`; `dropna().astype(str)`
  becomes `filterMap id` (the values are already strings).
* the four `REGEX_PATTERNS` (ASCII reading of the character classes; the
  `$` anchor, which in Python also matches just before one trailing
  newline, is modelled by stripping one trailing newline) are compiled
  by hand into the Boolean matchers below.
* divisions (`matches / len(valid_sample)` and `nunique / col_size`),
  which raise `ZeroDivisionError` in Python on a zero divisor, are
  modelled in `Except String`; `col_name` is unused by the Python body
  and is omitted.
-/

inductive PDType
  | objectD
  | stringD
  | int64
  | float64
  | boolD
  | datetime64
deriving DecidableEq

/-- pandas `is_string_dtype(dtype) or is_object_dtype(dtype)`. -/
def isStringOrObjectDtype : PDType → Bool
  | .objectD => true
  | .stringD => true
  | _ => false

/-- pandas `is_datetime64_any_dtype`. -/
def isDatetime64AnyDtype : PDType → Bool
  | .datetime64 => true
  | _ => false

/-- pandas `is_numeric_dtype` (booleans are numeric in pandas). -/
def isNumericDtype : PDType → Bool
  | .int64 => true
  | .float64 => true
  | .boolD => true
  | _ => false

/-- `[a-zA-Z]`. -/
def isAsciiAlpha (c : Char) : Bool :=
  ('a' ≤ c && c ≤ 'z') || ('A' ≤ c && c ≤ 'Z')

/-- `[0-9]` (also the model of `\d`). -/
def isAsciiDigit (c : Char) : Bool :=
  '0' ≤ c && c ≤ '9'

/-- `[a-zA-Z0-9._%+-]`, the local part of the email pattern. -/
def isLocalChar (c : Char) : Bool :=
  isAsciiAlpha c || isAsciiDigit c || c == '.' || c == '_' || c == '%' || c == '+' || c == '-'

/-- `[a-zA-Z0-9.-]`, the domain part of the email pattern. -/
def isDomainChar (c : Char) : Bool :=
  isAsciiAlpha c || isAsciiDigit c || c == '.' || c == '-'

/-- `\s` (ASCII core). -/
def isWhitespaceRe (c : Char) : Bool :=
  c == ' ' || c == '\t' || c == '\n' || c == '\r' || c == '\x0B' || c == '\x0C'

/-- One trailing newline is invisible to a final `$` in a Python regex. -/
def stripTrailingNewline (cs : List Char) : List Char :=
  match cs.getLast? with
  | some '\n' => cs.dropLast
  | _ => cs

/-- Splits a character list on a separator character (every occurrence),
as Python `str.split(sep)` / the decomposition induced by the patterns. -/
def splitOnChar (sep : Char) : List Char → List (List Char)
  | [] => [[]]
  | c :: rest =>
    let r := splitOnChar sep rest
    if c == sep then [] :: r
    else
      match r with
      | h :: t => (c :: h) :: t
      | [] => [[c]]

/-- `[a-zA-Z]{2,}$`: the part of the email domain after the last consumed dot. -/
def emailTailOk (cs : List Char) : Bool :=
  decide (2 ≤ cs.length) && cs.all isAsciiAlpha

/-- `[a-zA-Z0-9.-]+\.[a-zA-Z]{2,}$` on the part after the `@`: some split
position holds a dot, with a nonempty domain-char prefix before it and an
alphabetic tail of length ≥ 2 after it. -/
def emailDomainOk (cs : List Char) : Bool :=
  (List.range cs.length).any fun i =>
    cs.getD i ' ' == '.' && decide (1 ≤ i) && (cs.take i).all isDomainChar
      && emailTailOk (cs.drop (i + 1))

/-- Full match of `REGEX_PATTERNS["email"]`:
`^[a-zA-Z0-9._%+-]+@[a-zA-Z0-9.-]+\.[a-zA-Z]{2,}$`. Since `@` belongs to
neither character class, a match forces exactly one `@`. -/
def emailMatch (s : String) : Bool :=
  match splitOnChar '@' (stripTrailingNewline s.toList) with
  | [localPart, domain] =>
      decide (0 < localPart.length) && localPart.all isLocalChar && emailDomainOk domain
  | _ => false

/-- `[^\s/$.?#]`, the first character after the URL scheme. -/
def urlFirstChar (c : Char) : Bool :=
  !(isWhitespaceRe c || c == '/' || c == '$' || c == '.' || c == '?' || c == '#')

/-- `[^\s/$.?#].[^\s]*$` (`.` is any character but a newline). -/
def urlAfterScheme : List Char → Bool
  | c1 :: c2 :: rest => urlFirstChar c1 && !(c2 == '\n') && rest.all fun c => !isWhitespaceRe c
  | _ => false

/-- Full match of `REGEX_PATTERNS["url"]`: `^(https?|ftp)://[^\s/$.?#].[^\s]*$`. -/
def urlMatch (s : String) : Bool :=
  match stripTrailingNewline s.toList with
  | 'h' :: 't' :: 't' :: 'p' :: 's' :: ':' :: '/' :: '/' :: rest => urlAfterScheme rest
  | 'h' :: 't' :: 't' :: 'p' :: ':' :: '/' :: '/' :: rest => urlAfterScheme rest
  | 'f' :: 't' :: 'p' :: ':' :: '/' :: '/' :: rest => urlAfterScheme rest
  | _ => false

/-- `[0-9]{1,3}`, one dot-separated block of the IP pattern. -/
def ipPartOk (p : List Char) : Bool :=
  decide (1 ≤ p.length) && decide (p.length ≤ 3) && p.all isAsciiDigit

/-- Full match of `REGEX_PATTERNS["ip_address"]`:
`^(?:[0-9]{1,3}\.){3}[0-9]{1,3}$`, i.e. exactly four digit blocks. -/
def ipMatch (s : String) : Bool :=
  match splitOnChar '.' (stripTrailingNewline s.toList) with
  | [a, b, c, d] => ipPartOk a && ipPartOk b && ipPartOk c && ipPartOk d
  | _ => false

/-- Full match of `REGEX_PATTERNS["phone"]`: `^\+?1?\d{9,15}$` with
backtracking over the optional `1`: after an optional leading `+`, the rest
is all digits with length in `[9,15]`, or starts with `1` and has length in
`[10,16]`. -/
def phoneMatch (s : String) : Bool :=
  let u :=
    match stripTrailingNewline s.toList with
    | '+' :: rest => rest
    | cs => cs
  u.all isAsciiDigit &&
    ((decide (9 ≤ u.length) && decide (u.length ≤ 15)) ||
      (u.headD ' ' == '1' && decide (10 ≤ u.length) && decide (u.length ≤ 16)))

/-- `REGEX_PATTERNS` in its Python insertion order, each name already
title-cased as the f-string `f"Text ({type_name.title()})"` produces it. -/
def regexMatchers : List (String × (String → Bool)) :=
  [("Email", emailMatch), ("Url", urlMatch), ("Ip_Address", ipMatch), ("Phone", phoneMatch)]

/-- A Python float division, raising `ZeroDivisionError` on divisor 0. -/
def qdiv (a b : ℚ) : Except String ℚ :=
  if b = 0 then .error "ZeroDivisionError" else .ok (a / b)

/-- The `for type_name, pattern in REGEX_PATTERNS.items():` loop of step 1:
returns the first `Text (<kind>)` label whose match ratio over the valid
sample exceeds 0.8, `none` if no pattern qualifies. -/
def semanticLoop (validSample : List String) :
    List (String × (String → Bool)) → Except String (Option String)
  | [] => .ok none
  | m :: rest => do
      let matchCount := (validSample.filter m.2).length
      let ratio ← qdiv (matchCount : ℚ) (validSample.length : ℚ)
      if ratio > 8/10 then .ok (some ("Text (" ++ m.1 ++ ")"))
      else semanticLoop validSample rest

/-- Step 1 of `_classify_column`: semantic checks on string/object columns,
guarded by `if len(valid_sample) > 0`. -/
def semanticCheck (dtype : PDType) (sampleValues : List (Option String)) :
    Except String (Option String) :=
  if isStringOrObjectDtype dtype then
    let validSample := sampleValues.filterMap id
    if 0 < validSample.length then semanticLoop validSample regexMatchers
    else .ok none
  else .ok none

def CATEGORICAL_THRESHOLD : ℕ := 50

/-- Steps 2 and 3 of `_classify_column`: the structural checks and the
ID-versus-text checks, in source order. -/
def structuralClassify (dtype : PDType) (nunique colSize : ℕ) : Except String String :=
  if nunique = 1 then .ok "Constant"
  else if nunique = 2 then .ok "Boolean"
  else if isDatetime64AnyDtype dtype then .ok "Datetime"
  else if isNumericDtype dtype then
    if nunique ≤ CATEGORICAL_THRESHOLD then .ok "Categorical (Numeric)" else .ok "Numeric"
  else if nunique = colSize then .ok "Unique ID"
  else do
    let ratio ← qdiv (nunique : ℚ) (colSize : ℚ)
    if ratio > 9/10 then .ok "High Cardinality ID"
    else if nunique ≤ CATEGORICAL_THRESHOLD then .ok "Categorical"
    else .ok "Text (High Cardinality)"

/-- Embedding of `_classify_column`: the semantic step runs first, its
label (when any) is returned, otherwise the structural steps decide. -/
def classifyColumn (dtype : PDType) (nunique colSize : ℕ)
    (sampleValues : List (Option String)) : Except String String := do
  match ← semanticCheck dtype sampleValues with
  | some label => .ok label
  | none => structuralClassify dtype nunique colSize

/-! ## SamplingEngine

Embedding of the adaptive-sampling step of `analyze` in
`p01_overview/run_analysis.py` (the `SAMPLE_SIZE` block).  A partitioned
table is represented by the list of its partition row counts; only the
number of materialized sample rows is modelled.  `head(k)` on a partition
of `p` rows yields `min k p` rows, and `//` is natural floor division.
-/

def SAMPLE_SIZE : ℕ := 50000

/-- Rows drawn from each partition in the multi-partition branch:
`rows_per_part = max(10, SAMPLE_SIZE // ddf.npartitions)`, then
`map_partitions(lambda x: x.head(rows_per_part))`. -/
def rowsPerPart (parts : List ℕ) : ℕ :=
  max 10 (SAMPLE_SIZE / parts.length)

/-- Number of rows the sampling step materializes for deep profiling. -/
def sampleLen (parts : List ℕ) : ℕ :=
  let numRows := parts.sum
  if numRows > SAMPLE_SIZE then
    if parts.length > 1 then
      (parts.map fun p => min (rowsPerPart parts) p).sum
    else min SAMPLE_SIZE numRows
  else numRows

/-! ## Partition diagnostics

Embedding of `_check_partition_balance` from `p01_overview/run_analysis.py`.
The reported `skew` field is `round(skew, 2)`; `is_skewed` is computed on
the unrounded value; `avg_rows_per_partition` is `int(avg_size)` (float
truncation, which for the nonnegative mean is the floor).
-/

structure PartitionStats where
  numPartitions : ℕ
  avgRowsPerPartition : ℤ
  skew : ℚ
  isSkewed : Bool
deriving DecidableEq

/-- `np.mean(partition_sizes)`. -/
def meanSize (sizes : List ℕ) : ℚ :=
  (sizes.sum : ℚ) / sizes.length

/-- `np.max(partition_sizes)` (the sizes are naturals, so folding from 0
is the maximum of a nonempty list). -/
def maxSize (sizes : List ℕ) : ℕ :=
  sizes.foldr max 0

/-- The unrounded skew metric `(max_size - avg_size) / avg_size if avg_size > 0 else 0`. -/
def skewMetric (sizes : List ℕ) : ℚ :=
  if meanSize sizes > 0 then ((maxSize sizes : ℚ) - meanSize sizes) / meanSize sizes else 0

/-- Embedding of `_check_partition_balance`; `none` models the empty dict
returned for an empty partition list. -/
def checkPartitionBalance (sizes : List ℕ) : Option PartitionStats :=
  if sizes = [] then none
  else
    some
      { numPartitions := sizes.length
        avgRowsPerPartition := ⌊meanSize sizes⌋
        skew := roundq (skewMetric sizes) 2
        isSkewed := skewMetric sizes > 1/2 }

/-! ## StageOrchestrator

Embedding of the `pipeline_steps` loop of `run_analysis_pipeline` in
`main_orchestrator.py`.  A stage is its name together with its
`req_target` flag; a run is parametrised by the behaviour of the stage
functions (`Except.error` models a raised exception, caught by the
`try/except` and recorded as an `{"error": ...}` entry).  Stages whose
`req_target` flag is set are skipped with `continue` when the Python
truthiness of `target` is false (`None` or the empty string), so no entry
is added for them. -/

structure StageSpec where
  name : String
  reqTarget : Bool
deriving DecidableEq

/-- The fixed `pipeline_steps` list (stage name and `req_target` flag). -/
def pipelineSteps : List StageSpec :=
  [⟨"p02_univariate", false⟩,
   ⟨"p03_data_quality", false⟩,
   ⟨"p04_advanced_outliers", false⟩,
   ⟨"p05_missing_values", false⟩,
   ⟨"p06_correlations", false⟩,
   ⟨"p07_interactions", false⟩,
   ⟨"p08_hypothesis_testing", false⟩,
   ⟨"p09_pca", false⟩,
   ⟨"p10_clustering", false⟩,
   ⟨"p11_target_analysis", true⟩,
   ⟨"p12_explainability_shap", true⟩,
   ⟨"p14_deep_text_analysis", false⟩,
   ⟨"p15_timeseries", false⟩,
   ⟨"p16_geospatial", false⟩,
   ⟨"p17_business_insights", false⟩,
   ⟨"p18_decision_engine", false⟩]

/-- An entry of the run's result map: the stage's return value, or the
`{"error": str(e)}` dict recorded by the `except` branch. -/
inductive StageResult
  | success (payload : String)
  | failure (errMsg : String)
deriving DecidableEq

/-- Python truthiness of the `target` argument (`not target` is true for
`None` and for the empty string). -/
def targetTruthy : Option String → Bool
  | none => false
  | some s => !(s == "")

/-- The skip condition `if req_target and not target: continue`. -/
def stageSkipped (target : Option String) (s : StageSpec) : Bool :=
  s.reqTarget && !targetTruthy target

/-- How a stage invocation lands in the result map. -/
def entryOf : Except String String → StageResult
  | .ok v => .success v
  | .error e => .failure e

/-- The `for i, (name, func, req_target, args) in enumerate(pipeline_steps)`
loop: skipped stages add nothing, every other stage appends its entry
(success payload, or failure message caught by the `except`). -/
def runStages (target : Option String) (behave : String → Except String String) :
    List (String × StageResult) :=
  pipelineSteps.foldl
    (fun acc s => if stageSkipped target s then acc else acc ++ [(s.name, entryOf (behave s.name))])
    []

/-- The stage functions the loop actually calls (skipped stages are not
invoked). -/
def invokedStages (target : Option String) : List String :=
  (pipelineSteps.filter fun s => !stageSkipped target s).map (·.name)

theorem runStages_foldl (target : Option String) (behave : String → Except String String)
    (l : List StageSpec) (acc : List (String × StageResult)) :
    l.foldl
      (fun acc s => if stageSkipped target s then acc
        else acc ++ [(s.name, entryOf (behave s.name))]) acc
    = acc ++ (l.filter fun s => !stageSkipped target s).map
        (fun s => (s.name, entryOf (behave s.name))) := by
  induction l generalizing acc with
  | nil => simp
  | cons s rest ih =>
    by_cases h : stageSkipped target s = true
    · simp [List.foldl_cons, h, ih]
    · simp only [Bool.not_eq_true] at h
      simp [List.foldl_cons, h, ih]

/-- The result map is exactly the non-skipped stages, each mapped to the
entry determined by its own stage function alone. -/
theorem runStages_eq (target : Option String) (behave : String → Except String String) :
    runStages target behave
      = (pipelineSteps.filter fun s => !stageSkipped target s).map
          (fun s => (s.name, entryOf (behave s.name))) := by
  unfold runStages
  simpa using runStages_foldl target behave pipelineSteps []

/-! ## Claim theorems -/

/-- C5: for every `missing_pct`, `duplicate_pct` and `anomaly_pct`, the
final health score equals `clamp(round(100 − missing_pct − duplicate_pct −
0.5·anomaly_pct, 1), 0, 100)`, and the label is `Excellent` iff the score
is ≥ 90, `Good` iff it is in `[80, 90)`, `Fair` iff it is in `[60, 80)`,
and `Poor` iff it is below 60. -/
theorem C5_final_health_score_formula_and_labels (m d a : ℚ) :
    healthScoreFinal m d a = max 0 (min 100 (roundq (100 - m - d - (1/2) * a) 1)) ∧
    (healthLabelFinal (healthScoreFinal m d a) = "Excellent" ↔ 90 ≤ healthScoreFinal m d a) ∧
    (healthLabelFinal (healthScoreFinal m d a) = "Good" ↔
      80 ≤ healthScoreFinal m d a ∧ healthScoreFinal m d a < 90) ∧
    (healthLabelFinal (healthScoreFinal m d a) = "Fair" ↔
      60 ≤ healthScoreFinal m d a ∧ healthScoreFinal m d a < 80) ∧
    (healthLabelFinal (healthScoreFinal m d a) = "Poor" ↔ healthScoreFinal m d a < 60) := by
  refine ⟨by norm_num [healthScoreFinal], ?_⟩
  set s := healthScoreFinal m d a with hs
  unfold healthLabelFinal
  split_ifs with h1 h2 h3 <;>
    refine ⟨?_, ?_, ?_, ?_⟩ <;> simp_all <;> first | linarith | (intro h; linarith)

/-- C6: both health-score functions are monotonically non-increasing in
each of their inputs, and for non-negative inputs the returned score lies
in `[0, 100]` (for `healthScoreFinal` the bounds hold unconditionally via
the clamp; for `calculateHealthScore` the upper bound uses the
non-negativity of the percentages since the code has no upper clamp). -/
theorem C6_health_scores_monotone_and_bounded (m m' d d' a a' : ℚ)
    (hm0 : 0 ≤ m) (hd0 : 0 ≤ d) (ha0 : 0 ≤ a)
    (hm : m ≤ m') (hd : d ≤ d') (ha : a ≤ a') :
    calculateHealthScore m' d a ≤ calculateHealthScore m d a ∧
    calculateHealthScore m d' a ≤ calculateHealthScore m d a ∧
    calculateHealthScore m d a' ≤ calculateHealthScore m d a ∧
    healthScoreFinal m' d a ≤ healthScoreFinal m d a ∧
    healthScoreFinal m d' a ≤ healthScoreFinal m d a ∧
    healthScoreFinal m d a' ≤ healthScoreFinal m d a ∧
    0 ≤ calculateHealthScore m d a ∧ calculateHealthScore m d a ≤ 100 ∧
    0 ≤ healthScoreFinal m d a ∧ healthScoreFinal m d a ≤ 100 :=
  ⟨calculateHealthScore_antitone hm le_rfl le_rfl,
   calculateHealthScore_antitone le_rfl hd le_rfl,
   calculateHealthScore_antitone le_rfl le_rfl ha,
   healthScoreFinal_antitone hm le_rfl le_rfl,
   healthScoreFinal_antitone le_rfl hd le_rfl,
   healthScoreFinal_antitone le_rfl le_rfl ha,
   calculateHealthScore_nonneg m d a,
   calculateHealthScore_le_100 hm0 hd0 ha0,
   healthScoreFinal_nonneg m d a,
   healthScoreFinal_le_100 m d a⟩

/-- Witness for C6 at `(m, d, a) = (1, 2, 3)` increased to `(2, 4, 7)`. -/
theorem C6_health_scores_monotone_and_bounded_witness :
    calculateHealthScore 2 2 3 ≤ calculateHealthScore 1 2 3 ∧
    calculateHealthScore 1 4 3 ≤ calculateHealthScore 1 2 3 ∧
    calculateHealthScore 1 2 7 ≤ calculateHealthScore 1 2 3 ∧
    healthScoreFinal 2 2 3 ≤ healthScoreFinal 1 2 3 ∧
    healthScoreFinal 1 4 3 ≤ healthScoreFinal 1 2 3 ∧
    healthScoreFinal 1 2 7 ≤ healthScoreFinal 1 2 3 ∧
    0 ≤ calculateHealthScore 1 2 3 ∧ calculateHealthScore 1 2 3 ≤ 100 ∧
    0 ≤ healthScoreFinal 1 2 3 ∧ healthScoreFinal 1 2 3 ≤ 100 :=
  C6_health_scores_monotone_and_bounded 1 2 2 4 3 7
    (by norm_num) (by norm_num) (by norm_num) (by norm_num) (by norm_num) (by norm_num)

/-- C8 counterexample: for partition sizes `[1, 2]` the mean is `3/2`, the
unrounded skew `(max − mean)/mean` is `1/3`, but the diagnostics reports
`round(1/3, 2) = 0.33 ≠ 1/3`, so the reported `skew` field does not equal
`(max − mean)/mean` for every positive-mean input. -/
theorem C8_counterexample :
    checkPartitionBalance [1, 2] = some ⟨2, 1, 33/100, false⟩ ∧
    (((maxSize [1, 2] : ℚ) - meanSize [1, 2]) / meanSize [1, 2]) = 1/3 ∧
    (33/100 : ℚ) ≠ 1/3 := by
  refine ⟨?_, by norm_num [maxSize, meanSize], by norm_num⟩
  norm_num [checkPartitionBalance, meanSize, maxSize, skewMetric, roundq, rhe, Int.floor_eq_iff]
  intro h
  simp_all

/-- C8 (amended): for every non-empty partition-size list with positive
mean, the diagnostics reports `skew = round((max − mean)/mean, 2)` — the
unrounded ratio only up to rounding at two decimals — and `is_skewed` is
true exactly when the unrounded `(max − mean)/mean` exceeds `0.5`; in
particular for `[10000, 10000, 10000, 70000]` the reported skew is exactly
`1.8` and `is_skewed` is true. -/
theorem C8_partition_skew_amended (sizes : List ℕ) (hne : sizes ≠ [])
    (hpos : 0 < meanSize sizes) :
    checkPartitionBalance sizes = some
      { numPartitions := sizes.length
        avgRowsPerPartition := ⌊meanSize sizes⌋
        skew := roundq (((maxSize sizes : ℚ) - meanSize sizes) / meanSize sizes) 2
        isSkewed := decide (((maxSize sizes : ℚ) - meanSize sizes) / meanSize sizes > 1/2) } ∧
    checkPartitionBalance [10000, 10000, 10000, 70000] = some ⟨4, 25000, 9/5, true⟩ := by
  constructor
  · simp [checkPartitionBalance, skewMetric, hne, hpos]
  · norm_num [checkPartitionBalance, meanSize, maxSize, skewMetric, roundq, rhe, Int.floor_eq_iff]
    intro h
    simp_all

/-- Witness for C8 (amended) at the one-partition list `[1]`. -/
theorem C8_partition_skew_amended_witness :
    checkPartitionBalance [1] = some
      { numPartitions := ([1] : List ℕ).length
        avgRowsPerPartition := ⌊meanSize [1]⌋
        skew := roundq (((maxSize [1] : ℚ) - meanSize [1]) / meanSize [1]) 2
        isSkewed := decide (((maxSize [1] : ℚ) - meanSize [1]) / meanSize [1] > 1/2) } ∧
    checkPartitionBalance [10000, 10000, 10000, 70000] = some ⟨4, 25000, 9/5, true⟩ :=
  C8_partition_skew_amended [1] (by simp) (by norm_num [meanSize])

/-- C4 counterexample: a table of 5001 partitions of 10 rows each has
`row_count = 50010 > 50000 = size_budget` and more than one partition, yet
`rows_per_part = max(10, 50000 // 5001) = 10` makes the materialized
sample keep all 50010 rows — more than the size budget. -/
theorem C4_counterexample :
    (List.replicate 5001 10).sum > SAMPLE_SIZE ∧
    (List.replicate 5001 10).length > 1 ∧
    sampleLen (List.replicate 5001 10) = 50010 ∧
    SAMPLE_SIZE < sampleLen (List.replicate 5001 10) := by
  have hsum : (List.replicate 5001 10).sum = 50010 := by
    rw [List.sum_replicate]
    norm_num
  have hlen : (List.replicate 5001 10).length = 5001 := List.length_replicate 5001 10
  have hrpp : rowsPerPart (List.replicate 5001 10) = 10 := by
    norm_num [rowsPerPart, SAMPLE_SIZE, hlen]
  have hval : sampleLen (List.replicate 5001 10) = 50010 := by
    unfold sampleLen
    simp only [hsum, hlen, hrpp, List.map_replicate, SAMPLE_SIZE]
    norm_num [List.sum_replicate]
  refine ⟨?_, ?_, hval, ?_⟩
  · rw [hsum]
    norm_num [SAMPLE_SIZE]
  · rw [hlen]
    norm_num
  · rw [hval]
    norm_num [SAMPLE_SIZE]

/-- C4 (amended): for every table with `row_count > size_budget` and more
than one partition, each partition contributes `min(rows_per_part, p) ≥
min(10, p)` rows to the sample, and the sample length is bounded by
`max(size_budget, 10 · partition_count)` — it is within the 50,000-row
budget whenever the table has at most 5000 partitions, but the 10-row
floor per partition can push it above the budget beyond that. -/
theorem C4_sample_bounds (parts : List ℕ)
    (hrows : parts.sum > SAMPLE_SIZE) (hparts : parts.length > 1) :
    (∀ p ∈ parts, min 10 p ≤ min (rowsPerPart parts) p) ∧
    sampleLen parts = (parts.map fun p => min (rowsPerPart parts) p).sum ∧
    sampleLen parts ≤ max SAMPLE_SIZE (10 * parts.length) := by
  have h10 : 10 ≤ rowsPerPart parts := le_max_left _ _
  refine ⟨fun p _ => min_le_min h10 le_rfl, ?_, ?_⟩
  · simp [sampleLen, hrows, hparts]
  · have hsum : (parts.map fun p => min (rowsPerPart parts) p).sum
        ≤ (parts.map fun p => min (rowsPerPart parts) p).length • rowsPerPart parts := by
      apply List.sum_le_card_nsmul
      intro x hx
      simp only [List.mem_map] at hx
      obtain ⟨p, _, rfl⟩ := hx
      exact min_le_left _ _
    rw [List.length_map, smul_eq_mul] at hsum
    have hbound : parts.length * rowsPerPart parts ≤ max SAMPLE_SIZE (10 * parts.length) := by
      rcases Nat.le_total (SAMPLE_SIZE / parts.length) 10 with h | h
      · have hr : rowsPerPart parts = 10 := by
          unfold rowsPerPart
          omega
        rw [hr, Nat.mul_comm]
        exact le_max_right _ _
      · have hr : rowsPerPart parts = SAMPLE_SIZE / parts.length := by
          unfold rowsPerPart
          omega
        rw [hr]
        calc parts.length * (SAMPLE_SIZE / parts.length) ≤ SAMPLE_SIZE := by
              rw [Nat.mul_comm]
              exact Nat.div_mul_le_self _ _
          _ ≤ max SAMPLE_SIZE (10 * parts.length) := le_max_left _ _
    calc sampleLen parts = (parts.map fun p => min (rowsPerPart parts) p).sum := by
          simp [sampleLen, hrows, hparts]
      _ ≤ parts.length * rowsPerPart parts := hsum
      _ ≤ _ := hbound

/-- Witness for C4 (amended) at two partitions of 30000 rows each. -/
theorem C4_sample_bounds_witness :
    min 10 30000 ≤ min (rowsPerPart [30000, 30000]) 30000 ∧
    sampleLen [30000, 30000]
      = ([30000, 30000].map fun p => min (rowsPerPart [30000, 30000]) p).sum ∧
    sampleLen [30000, 30000] ≤ max SAMPLE_SIZE (10 * ([30000, 30000] : List ℕ).length) := by
  have h := C4_sample_bounds [30000, 30000]
    (by norm_num [SAMPLE_SIZE]) (by norm_num)
  exact ⟨h.1 30000 (by norm_num), h.2.1, h.2.2⟩

theorem exceptOkBind {α β : Type} (a : α) (f : α → Except String β) :
    (Except.ok a >>= f) = f a := rfl

theorem semanticCheck_nonString {dtype : PDType} (sample : List (Option String))
    (h : isStringOrObjectDtype dtype = false) :
    semanticCheck dtype sample = .ok none := by
  simp [semanticCheck, h]

/-- C2 counterexample: an object column whose single repeated value is
`"a@b.com"` has `distinct_count == 1`, yet the classifier labels it
`Text (Email)` — the semantic regex step runs before the `Constant`
check, so `Constant` does not take precedence over a semantic match. -/
theorem C2_counterexample :
    classifyColumn .objectD 1 3 (List.replicate 3 (some "a@b.com")) = .ok "Text (Email)" ∧
    (Except.ok "Text (Email)" : Except String String) ≠ .ok "Constant" := by
  constructor
  · have hE : emailMatch "a@b.com" = true := rfl
    norm_num [classifyColumn, semanticCheck, semanticLoop, regexMatchers, qdiv,
      isStringOrObjectDtype, List.replicate, List.filterMap, List.filter_cons, hE, exceptOkBind]
    rfl
  · simp

/-- C2 (amended): a column with `distinct_count == 1` is labelled
`Constant` whenever the semantic regex step (which runs first) does not
fire — i.e. for every non-string dtype, and for string/object columns
whose sample matches no pattern above the 0.8 ratio; a constant string
column that does match a pattern gets the `Text (<kind>)` label instead. -/
theorem C2_constant_unless_semantic (dtype : PDType) (colSize : ℕ)
    (sample : List (Option String))
    (hsem : semanticCheck dtype sample = .ok none) :
    classifyColumn dtype 1 colSize sample = .ok "Constant" := by
  simp [classifyColumn, hsem, structuralClassify, exceptOkBind]

/-- Witness for C2 (amended): a constant integer column of 5 rows. -/
theorem C2_constant_unless_semantic_witness :
    classifyColumn .int64 1 5 [some "7", some "7"] = .ok "Constant" :=
  C2_constant_unless_semantic .int64 5 [some "7", some "7"]
    (semanticCheck_nonString _ rfl)

/-- C3 counterexample: an `int64` column of a 10-row table with 10 distinct
values (`distinct_count == row_count`, `row_count > 1`) is labelled
`Categorical (Numeric)` — the numeric rule (`distinct_count ≤ 50`) fires
before the `Unique ID` check, so the classifier does return a
`Categorical` label for such a column. -/
theorem C3_counterexample :
    classifyColumn .int64 10 10 [] = .ok "Categorical (Numeric)" ∧
    (Except.ok "Categorical (Numeric)" : Except String String) ≠ .ok "Unique ID" := by
  constructor
  · norm_num [classifyColumn, semanticCheck, semanticLoop, structuralClassify, qdiv,
      isStringOrObjectDtype, isDatetime64AnyDtype, isNumericDtype, CATEGORICAL_THRESHOLD,
      exceptOkBind]
  · simp

/-- C3 (amended): the `Unique ID` label is returned for
`distinct_count == row_count` only on columns the earlier rules pass over:
no semantic match, dtype neither datetime-like nor numeric, and
`distinct_count > 2` (so the `Constant` and `Boolean` checks do not
fire); a numeric column is classified by the numeric rule first —
`Categorical (Numeric)` when `distinct_count ≤ 50` — even when
`distinct_count == row_count`. -/
theorem C3_unique_id_amended (dtype : PDType) (nunique colSize : ℕ)
    (sample : List (Option String))
    (hsem : semanticCheck dtype sample = .ok none)
    (hdt : isDatetime64AnyDtype dtype = false)
    (hnum : isNumericDtype dtype = false)
    (heq : nunique = colSize) (hgt : 2 < nunique) :
    classifyColumn dtype nunique colSize sample = .ok "Unique ID" := by
  have h1 : nunique ≠ 1 := by omega
  have h2 : nunique ≠ 2 := by omega
  subst heq
  simp [classifyColumn, hsem, structuralClassify, hdt, hnum, h1, h2, exceptOkBind]

/-- Witness for C3 (amended): an object column of 5 rows with 5 distinct values. -/
theorem C3_unique_id_amended_witness :
    classifyColumn .objectD 5 5 [] = .ok "Unique ID" :=
  C3_unique_id_amended .objectD 5 5 [] rfl rfl rfl rfl (by norm_num)

/-- C7 counterexample: an object column of an empty table
(`row_count == 0`, `distinct_count == 0`) is classified `Unique ID` — a
structural label, not an `Unsupported`/`Unknown` one (no exception is
raised, but only because the `nunique == col_size` check fires before the
cardinality-ratio division). -/
theorem C7_counterexample :
    classifyColumn .objectD 0 0 [] = .ok "Unique ID" ∧
    (Except.ok "Unique ID" : Except String String) ≠ .ok "Unsupported" ∧
    (Except.ok "Unique ID" : Except String String) ≠ .ok "Unknown" := by
  refine ⟨?_, by simp, by simp⟩
  norm_num [classifyColumn, semanticCheck, semanticLoop, structuralClassify, qdiv,
    isStringOrObjectDtype, isDatetime64AnyDtype, isNumericDtype, CATEGORICAL_THRESHOLD,
    exceptOkBind]

/-- C7 (amended): for a column of an empty table (`row_count == 0`, hence
`distinct_count == 0`) on which the semantic step does not fire, the
classifier raises no `ZeroDivisionError` — the `nunique == col_size`
check (`0 == 0`) short-circuits before the cardinality-ratio division —
but the returned label is structural (`Datetime`, `Categorical (Numeric)`
or `Unique ID` depending on dtype), never `Unsupported` or `Unknown`. -/
theorem C7_empty_table_amended (dtype : PDType) (sample : List (Option String))
    (hsem : semanticCheck dtype sample = .ok none) :
    classifyColumn dtype 0 0 sample
      = .ok (if isDatetime64AnyDtype dtype = true then "Datetime"
             else if isNumericDtype dtype = true then "Categorical (Numeric)"
             else "Unique ID") := by
  simp only [classifyColumn, hsem, exceptOkBind, structuralClassify, CATEGORICAL_THRESHOLD]
  norm_num
  split_ifs <;> rfl

/-- Witness for C7 (amended): an empty object column classifies as `Unique ID`. -/
theorem C7_empty_table_amended_witness :
    classifyColumn .objectD 0 0 [] = .ok "Unique ID" := by
  have h := C7_empty_table_amended .objectD [] rfl
  simpa [isDatetime64AnyDtype, isNumericDtype] using h

/-- C10: for a string/object column whose sampled values are all null, the
coerced valid sample is empty, so the semantic step returns no label and
raises nothing — the `len(valid_sample) > 0` guard prevents the
match-ratio division from ever being evaluated — and the classifier's
result is exactly that of the structural checks. -/
theorem C10_all_null_sample_skips_semantic (dtype : PDType) (nunique colSize : ℕ)
    (sample : List (Option String))
    (hstr : isStringOrObjectDtype dtype = true)
    (hvalid : sample.filterMap id = ([] : List String)) :
    semanticCheck dtype sample = .ok none ∧
    classifyColumn dtype nunique colSize sample = structuralClassify dtype nunique colSize := by
  have hsem : semanticCheck dtype sample = .ok none := by
    simp [semanticCheck, hstr, hvalid]
  exact ⟨hsem, by simp [classifyColumn, hsem, exceptOkBind]⟩

/-- Witness for C10: an object column sampled as two nulls. -/
theorem C10_all_null_sample_skips_semantic_witness :
    semanticCheck .objectD [none, none] = .ok none ∧
    classifyColumn .objectD 3 7 [none, none] = structuralClassify .objectD 3 7 :=
  C10_all_null_sample_skips_semantic .objectD 3 7 [none, none] rfl rfl

/-- C1 counterexample: in a run without a target column in which
`p02_univariate` (the first stage of the fixed list) raises, the failure
is recorded, but the later stage `p11_target_analysis` — which is in the
fixed pipeline list — is not invoked and no result for it appears in the
result map, so not *every* subsequent stage is invoked with its result
recorded. -/
theorem C1_counterexample :
    (fun n => if n == "p02_univariate" then .error "boom" else .ok "done")
        "p02_univariate" = (.error "boom" : Except String String) ∧
    ("p02_univariate", StageResult.failure "boom") ∈ (runStages none fun n =>
        if n == "p02_univariate" then .error "boom" else .ok "done") ∧
    (⟨"p11_target_analysis", true⟩ : StageSpec) ∈ pipelineSteps ∧
    "p11_target_analysis" ∉ invokedStages none ∧
    "p11_target_analysis" ∉ ((runStages none fun n =>
        if n == "p02_univariate" then .error "boom" else .ok "done").map Prod.fst) := by
  refine ⟨rfl, ?_, by decide, by decide, ?_⟩
  · rw [runStages_eq]
    decide
  · rw [runStages_eq]
    decide

/-- C1 (amended): in every run after a successful overview stage, a stage
whose analyze function raises has a failure entry (carrying the error
message) recorded in the result map, and every stage of the fixed
pipeline list that is not skipped for lack of a target is still invoked,
with its own result (success or failure, determined only by its own stage
function) in the result map — one stage's exception never suppresses
another stage's entry. -/
theorem C1_stage_failure_isolated (target : Option String)
    (behave : String → Except String String) (s : StageSpec) (e : String)
    (hs : s ∈ pipelineSteps) (herr : behave s.name = .error e)
    (hns : stageSkipped target s = false) :
    (s.name, StageResult.failure e) ∈ runStages target behave ∧
    ∀ t ∈ pipelineSteps, stageSkipped target t = false →
      t.name ∈ invokedStages target ∧
      (t.name, entryOf (behave t.name)) ∈ runStages target behave := by
  rw [runStages_eq]
  constructor
  · refine List.mem_map.mpr ⟨s, List.mem_filter.mpr ⟨hs, by simp [hns]⟩, ?_⟩
    simp [entryOf, herr]
  · intro t ht htns
    exact ⟨List.mem_map.mpr ⟨t, List.mem_filter.mpr ⟨ht, by simp [htns]⟩, rfl⟩,
      List.mem_map.mpr ⟨t, List.mem_filter.mpr ⟨ht, by simp [htns]⟩, rfl⟩⟩

/-- Witness for C1 (amended): with a target provided, `p03_data_quality`
raises and is recorded as a failure while `p18_decision_engine` is still
invoked and its success recorded. -/
theorem C1_stage_failure_isolated_witness :
    ("p03_data_quality", StageResult.failure "oops") ∈ (runStages (some "churn") fun n =>
        if n == "p03_data_quality" then .error "oops" else .ok "fine") ∧
    "p18_decision_engine" ∈ invokedStages (some "churn") ∧
    ("p18_decision_engine",
        entryOf ((fun n => if n == "p03_data_quality" then .error "oops"
          else (.ok "fine" : Except String String)) "p18_decision_engine"))
      ∈ (runStages (some "churn") fun n =>
          if n == "p03_data_quality" then .error "oops" else .ok "fine") := by
  have h := C1_stage_failure_isolated (some "churn")
    (fun n => if n == "p03_data_quality" then .error "oops" else .ok "fine")
    ⟨"p03_data_quality", false⟩ "oops" (by decide) rfl rfl
  exact ⟨h.1, (h.2 ⟨"p18_decision_engine", false⟩ (by decide) rfl).1,
    (h.2 ⟨"p18_decision_engine", false⟩ (by decide) rfl).2⟩

/-- C9 counterexample: in a run without a target where every stage
function succeeds, the target-requiring stage `p11_target_analysis` is
skipped with `continue` — it is never invoked and **no** entry for it
(of any kind, so in particular no `Skipped` entry) appears in the result
map, contradicting the claim that it is recorded as a `Skipped` result. -/
theorem C9_counterexample :
    (⟨"p11_target_analysis", true⟩ : StageSpec) ∈ pipelineSteps ∧
    "p11_target_analysis" ∉ invokedStages none ∧
    "p11_target_analysis" ∉ ((runStages none fun _ => .ok "done").map Prod.fst) ∧
    ("p02_univariate", StageResult.success "done") ∈ (runStages none fun _ => .ok "done") := by
  refine ⟨by decide, by decide, ?_, ?_⟩
  · rw [runStages_eq]
    decide
  · rw [runStages_eq]
    decide

/-- C9 (amended): in every run whose target is absent (or empty, which is
falsy in Python), each stage that declares it requires a target is
skipped and omitted from the result map entirely — its name is not a key
of the map, so it is recorded neither as failed nor as anything else
(the explanatory note is only printed) — while the run still completes,
the result map holding exactly the stages that do not require a target,
each with its own result. -/
theorem C9_no_target_skips_amended (target : Option String)
    (behave : String → Except String String)
    (hfalsy : targetTruthy target = false) :
    (runStages target behave).map Prod.fst
      = (pipelineSteps.filter fun s => !s.reqTarget).map (·.name) ∧
    (∀ s ∈ pipelineSteps, s.reqTarget = false →
      (s.name, entryOf (behave s.name)) ∈ runStages target behave) ∧
    "p11_target_analysis" ∉ (runStages target behave).map Prod.fst ∧
    "p12_explainability_shap" ∉ (runStages target behave).map Prod.fst := by
  have hmap : (runStages target behave).map Prod.fst
      = (pipelineSteps.filter fun s => !s.reqTarget).map (·.name) := by
    rw [runStages_eq, List.map_map]
    simp [stageSkipped, hfalsy, Function.comp]
  refine ⟨hmap, ?_, ?_, ?_⟩
  · intro s hs hreq
    rw [runStages_eq]
    exact List.mem_map.mpr ⟨s, List.mem_filter.mpr ⟨hs, by simp [stageSkipped, hfalsy, hreq]⟩, rfl⟩
  · rw [hmap]
    decide
  · rw [hmap]
    decide

/-- Witness for C9 (amended): the no-target, all-successful run. -/
theorem C9_no_target_skips_amended_witness :
    (runStages none fun _ => .ok "done").map Prod.fst
      = (pipelineSteps.filter fun s => !s.reqTarget).map (·.name) ∧
    (∀ s ∈ pipelineSteps, s.reqTarget = false →
      (s.name, entryOf ((fun _ => (.ok "done" : Except String String)) s.name))
        ∈ (runStages none fun _ => .ok "done")) ∧
    "p11_target_analysis" ∉ (runStages none fun _ => .ok "done").map Prod.fst ∧
    "p12_explainability_shap" ∉ (runStages none fun _ => .ok "done").map Prod.fst :=
  C9_no_target_skips_amended none (fun _ => .ok "done") rfl

end Decyphr
